import Mathlib

/-!
Verification development for the BasicOrbitSimulationPy repository.

The embedding below translates, module by module, the Python source into
Lean definitions:

* `vector.py`   — the 2-dimensional `Vector` value type (`Vec` below).
* `kinematics.py` — `Kinematics.calculateMutualForce`,
  `Kinematics.updateSimObjectList_Kinematics` (the per-step engine with
  its triangular reciprocal-force cache), and
  `Kinematics.updateSimObjectList_AnimationQuantities`.
* `data_handling.py` — the class-level (shared) history lists of
  `SimObjectData`, and the body records the kinematics engine iterates.
* `simulator.py` — `Simulation.addObject` and `Simulation.isRunning`.

Numeric model: Python `float64` values are modelled by `ℚ` (exact field
arithmetic; every concrete input used in a theorem below is dyadic, so
the float computation it reflects is exact).  Rational division is total
(`q / 0 = 0`); numpy float division by zero likewise raises no exception
(it yields `inf`/`nan` with a warning), and no theorem below depends on
the *value* of a division by zero, only on the fact that no exception is
raised.  `numpy.linalg.norm` (a square root, which `ℚ` cannot express)
is kept as an explicit function parameter `normFn`; it only ever feeds
the `speeds` history and the animation deviation aggregate, and the
theorems below either hold for every `normFn` or do not mention speeds.
-/

/-- `vector.py`: a 2-dimensional float vector (`numpy.ndarray` subclass
restricted to dimension 2 throughout the project). -/
structure Vec where
  x : ℚ
  y : ℚ
deriving DecidableEq, Repr

/-- Elementwise vector addition (numpy `+`). -/
def Vec.add (a b : Vec) : Vec := ⟨a.x + b.x, a.y + b.y⟩

instance : Add Vec := ⟨Vec.add⟩

/-- Elementwise vector subtraction (numpy `-`). -/
def Vec.sub (a b : Vec) : Vec := ⟨a.x - b.x, a.y - b.y⟩

instance : Sub Vec := ⟨Vec.sub⟩

/-- Elementwise negation (numpy unary `-`, also `-1 *`). -/
def Vec.neg (a : Vec) : Vec := ⟨-a.x, -a.y⟩

instance : Neg Vec := ⟨Vec.neg⟩

/-- Scalar multiplication (numpy scalar `*` broadcast). -/
def Vec.smul (c : ℚ) (v : Vec) : Vec := ⟨c * v.x, c * v.y⟩

instance : SMul ℚ Vec := ⟨Vec.smul⟩

/-- Scalar division (numpy `/` broadcast of a vector by a scalar). -/
def Vec.divScalar (v : Vec) (c : ℚ) : Vec := ⟨v.x / c, v.y / c⟩

instance : HDiv Vec ℚ Vec := ⟨Vec.divScalar⟩

/-- `np.dot` of two 2-vectors. -/
def Vec.dot (a b : Vec) : ℚ := a.x * b.x + a.y * b.y

/-- `vector.py` / `orbitSimulation.py`: the zero vector `Vector([0.0, 0.0])`. -/
def zeroVec : Vec := ⟨0, 0⟩

instance : Inhabited Vec := ⟨zeroVec⟩

/-- A simulated body as `kinematics.py` consumes it: `kinematics.py` reads
and appends the per-body attributes `_positions`, `_velocities`, `_speeds`
(each a list with the newest sample last, holding at least the initial
sample) together with `mass` and `isStatic`.  (`data_handling.py`'s
class-level shared storage is modelled separately below for the claim
about it.) -/
structure SimObject where
  name : String
  mass : ℚ
  isStatic : Bool
  positions : List Vec
  velocities : List Vec
  speeds : List ℚ
deriving DecidableEq, Repr

instance : Inhabited SimObject :=
  ⟨{ name := "", mass := 1, isStatic := false,
     positions := [zeroVec], velocities := [zeroVec], speeds := [0] }⟩

/-- Python `self._positions[-1]`: the latest position sample.  Bodies are
always constructed with one initial sample, so the list is never empty;
the default is never reached on inputs the program produces. -/
def SimObject.latestPos (o : SimObject) : Vec := o.positions.getLastD zeroVec

/-- Python `self._velocities[-1]`: the latest velocity sample. -/
def SimObject.latestVel (o : SimObject) : Vec := o.velocities.getLastD zeroVec

/-- `kinematics.py` lines 8–17, `Kinematics.calculateMutualForce`:
`r_vec = principle._positions[-1] - attractor._positions[-1]`;
`r_squared = np.dot(r_vec, r_vec)`;
`force = -(G * principle.mass * attractor.mass / r_squared) * r_vec`. -/
def Kinematics.calculateMutualForce
    (principleObject attractorObject : SimObject) (G : ℚ) : Vec :=
  let r_vec : Vec := principleObject.latestPos - attractorObject.latestPos
  let r_squared : ℚ := Vec.dot r_vec r_vec
  (-(G * principleObject.mass * attractorObject.mass / r_squared)) • r_vec

/-- The reciprocal-force cache of `kinematics.py` line 39:
`previouslyCalulatedMutualForces`, a Python list of lists where an unset
cell holds `None`. -/
abbrev ForceCache : Type := List (List (Option Vec))

/-- The two exceptions Python list indexing can raise inside the step:
`IndexError` from an out-of-range read or assignment, `TypeError` from
`-1 * None` when a read cell was never written. -/
inductive StepErr where
  | indexError : StepErr
  | typeError : StepErr
deriving DecidableEq, Repr

/-- Python read `previouslyCalulatedMutualForces[j][i]` as used on line 88,
with list bounds checking: an out-of-range index raises `IndexError`, and a
cell still holding `None` would make `-1 * None` raise `TypeError`. -/
def cacheRead (cache : ForceCache) (j i : Nat) : Except StepErr Vec :=
  match cache[j]? with
  | none => .error .indexError
  | some row =>
    match row[i]? with
    | none => .error .indexError
    | some none => .error .typeError
    | some (some f) => .ok f

/-- Python assignment `previouslyCalulatedMutualForces[i][j] = force`
(line 96), with list bounds checking: assigning past the end of the row
raises `IndexError`. -/
def cacheWrite (cache : ForceCache) (i j : Nat) (f : Vec) :
    Except StepErr ForceCache :=
  match cache[i]? with
  | none => .error .indexError
  | some row =>
    if j < row.length then
      .ok (cache.set i (row.set j (some f)))
    else
      .error .indexError

/-- The state threaded through one step: the body list (`simObjectList`,
mutated in place by Python), the force cache, and — instrumentation
required by the cache-effectiveness claim — the number of
`calculateMutualForce` invocations made so far. -/
structure StepState where
  objs : List SimObject
  cache : ForceCache
  calls : Nat

/-- The recursion underlying the first inner loop: accumulate
`-1 * previouslyCalulatedMutualForces[j][i]` over the given `j` indices,
propagating the first exception. -/
def cachedLoop (cache : ForceCache) (i : Nat) :
    List Nat → Vec → Except StepErr Vec
  | [], acc => .ok acc
  | j :: js, acc =>
    match cacheRead cache j i with
    | .error e => .error e
    | .ok f => cachedLoop cache i js (acc + ((-1 : ℚ) • f))

/-- `kinematics.py` lines 85–88, the first inner loop of iteration `i`:
`for (j, _) in enumerate(simObjectList[:i]): sumOfForces += -1 * previouslyCalulatedMutualForces[j][i]`,
starting from `sumOfForces = Vector([0.0, 0.0])` (line 83). -/
def sumCachedForces (cache : ForceCache) (i : Nat) : Except StepErr Vec :=
  cachedLoop cache i (List.range i) zeroVec

/-- `kinematics.py` lines 90–97, the second inner loop of iteration `i` over
the index list `[i+1, …, n-1]` (`enumerate(simObjectList[i+1:], start=i+1)`):
compute the mutual force (counting the invocation), store it at cache cell
`[i][j]`, and add it to the running sum.  On an `IndexError` from the store,
Python propagates the exception, keeping the calls already made. -/
def forceLoop (objs : List SimObject) (G : ℚ) (i : Nat) :
    List Nat → Vec → ForceCache → Nat → Vec × ForceCache × Nat × Option StepErr
  | [], acc, cache, calls => (acc, cache, calls, none)
  | j :: js, acc, cache, calls =>
    let force := Kinematics.calculateMutualForce
      (objs.getD i default) (objs.getD j default) G
    match cacheWrite cache i j force with
    | .error e => (acc, cache, calls + 1, some e)
    | .ok cache2 => forceLoop objs G i js (acc + force) cache2 (calls + 1)

/-- `kinematics.py` lines 79–122, the body of the outer loop for index `i`:
sum the cached reciprocal forces for `j < i`, compute and cache the forces
for `j > i`, then — unless the body is static (`continue`, line 113) —
append `nextPosition = pos[-1] + vel[-1]*dt + sumOfForces*dt²/2`,
`nextVelocity = vel[-1] + sumOfForces*dt/mass`, and
`linalg.norm(nextVelocity)` to the body's histories.  An exception leaves
the state as mutated so far and aborts. -/
def processBody (normFn : Vec → ℚ) (G dt : ℚ) (i : Nat) (st : StepState) :
    StepState × Option StepErr :=
  match sumCachedForces st.cache i with
  | .error e => (st, some e)
  | .ok partialSum =>
    match forceLoop st.objs G i
        (List.range' (i + 1) (st.objs.length - (i + 1))) partialSum
        st.cache st.calls with
    | (_, cache2, calls2, some e) =>
      ({ st with cache := cache2, calls := calls2 }, some e)
    | (sumOfForces, cache2, calls2, none) =>
      let principleObj := st.objs.getD i default
      if principleObj.isStatic then
        ({ st with cache := cache2, calls := calls2 }, none)
      else
        let nextPosition : Vec :=
          principleObj.latestPos + (dt • principleObj.latestVel)
            + ((dt ^ 2 • sumOfForces) / (2 : ℚ))
        let nextVelocity : Vec :=
          principleObj.latestVel + (dt • sumOfForces) / principleObj.mass
        let updated := { principleObj with
          positions := principleObj.positions ++ [nextPosition]
          velocities := principleObj.velocities ++ [nextVelocity]
          speeds := principleObj.speeds ++ [normFn nextVelocity] }
        ({ st with objs := st.objs.set i updated,
                   cache := cache2, calls := calls2 }, none)

/-- The outer loop `for (i, principleObj) in enumerate(simObjectList)`:
process each index in order, propagating the first exception (Python
aborts the remaining iterations but keeps all in-place mutations made so
far). -/
def bodyLoop (normFn : Vec → ℚ) (G dt : ℚ) :
    List Nat → StepState → StepState × Option StepErr
  | [], st => (st, none)
  | i :: is, st =>
    match processBody normFn G dt i st with
    | (st2, some e) => (st2, some e)
    | (st2, none) => bodyLoop normFn G dt is st2

/-- `kinematics.py` line 39: the initial cache
`[[None for _ in range(len(simObjectList) - i)] for i, _ in enumerate(simObjectList)]` —
row `i` has `n - i` cells. -/
def initCache (n : Nat) : ForceCache :=
  (List.range n).map (fun i => List.replicate (n - i) (none : Option Vec))

/-- `kinematics.py` lines 33–122, `Kinematics.updateSimObjectList_Kinematics`:
one simulation step over the whole body list.  Returns the final state
(bodies, cache, invocation count) together with the exception raised, if
any. -/
def Kinematics.updateSimObjectList_Kinematics (normFn : Vec → ℚ)
    (simObjectList : List SimObject) (G dt : ℚ) : StepState × Option StepErr :=
  bodyLoop normFn G dt (List.range simObjectList.length)
    ⟨simObjectList, initCache simObjectList.length, 0⟩

/-- Modelled from the spec: `data_handling.SimObjectList` defines no
`positions()` method (the call sites in
`Kinematics.updateSimObjectList_AnimationQuantities` are the only mention
of it in the repository), so it is modelled from the spec's words
"centroid = mean of latest positions": the list of every body's latest
position, in registry order — an `(n, 2)` numpy array, one row per body,
which is also what the per-element iteration on `kinematics.py` line 28
requires. -/
def SimObjectList.positions (simObjectList : List SimObject) : List Vec :=
  simObjectList.map SimObject.latestPos

/-- `np.sum(a, axis=1)` on an `(n, 2)` array: the list of the `n` row sums
`xᵢ + yᵢ` (summing over axis 1, the coordinates — not over the bodies). -/
def npSumAxis1 (rows : List Vec) : List ℚ := rows.map (fun p => p.x + p.y)

/-- Python `max(list)` for a non-empty list (on `[]` Python raises; the
default is never reached at the call site, which the claims exercise on
non-empty registries). -/
def listMax : List ℚ → ℚ
  | [] => 0
  | q :: qs => qs.foldl max q

/-- The aggregate quantities `updateSimObjectList_AnimationQuantities`
stores on the registry: `_center` (a numpy array of one entry per body,
because of the `axis=1` sum), `_max_center_deviation`, `_x_limit`,
`_y_limit`. -/
structure AnimationQuantities where
  center : List ℚ
  max_center_deviation : ℚ
  x_limit : ℚ × ℚ
  y_limit : ℚ × ℚ

/-- `kinematics.py` lines 18–31,
`Kinematics.updateSimObjectList_AnimationQuantities`:
`_center = np.sum(positions(), axis=1) / len(positions())`;
`_max_center_deviation = max([norm(p - _center) for p in positions()])`;
`_x_limit = [_center[0] - dev, _center[0] - dev]` (both entries subtract);
`_y_limit = [_center[1] - dev, _center[1] + dev]`.
The elementwise subtraction `p - _center` and the reads `_center[0]`,
`_center[1]` are well-formed in numpy exactly when `_center` has length 2,
i.e. when the registry has 2 bodies (otherwise numpy raises); the reads
are modelled by components 0 and 1 of `center`, and the theorems below
instantiate a 2-body registry, where this is exact.  `linalg.norm` is the
`normFn` parameter. -/
def Kinematics.updateSimObjectList_AnimationQuantities (normFn : Vec → ℚ)
    (simObjectList : List SimObject) : AnimationQuantities :=
  let ps := SimObjectList.positions simObjectList
  let center : List ℚ := (npSumAxis1 ps).map (fun s => s / (ps.length : ℚ))
  let centerVec : Vec := ⟨center.getD 0 0, center.getD 1 0⟩
  let dev : ℚ := listMax (ps.map (fun p => normFn (p - centerVec)))
  { center := center
    max_center_deviation := dev
    x_limit := (center.getD 0 0 - dev, center.getD 0 0 - dev)
    y_limit := (center.getD 1 0 - dev, center.getD 1 0 + dev) }

/-- `simulator.py`: the `Simulation` controller state the claims touch —
the `__simulation_running` flag (declared `False`, read by `isRunning`)
and the `__simulation_data` body registry. -/
structure Simulation where
  simulation_running : Bool
  simulation_data : List SimObject
deriving Repr

/-- `simulator.py` lines 175–179: `isRunning` returns the
`__simulation_running` flag. -/
def Simulation.isRunning (sim : Simulation) : Bool := sim.simulation_running

/-- The exception `Simulation.addObject` can raise:
`Exception(f"Object with name ... already exists in simulation.")`. -/
inductive AddErr where
  | nameConflict : AddErr
deriving DecidableEq, Repr

/-- The `SimObject` record `addObject` constructs
(`data_handling.SimObject.__init__`): stores `name`, `mass`, `isStatic`,
and the initial samples — the velocity forced to the zero vector when
`isStatic` (`init_velocity if not isStatic else zeroVec`), the initial
speed `linalg.norm` of that velocity.  (That the underlying
`SimObjectData` lists are class-level shared storage is modelled
separately below; here each body record carries its own samples, which is
what `kinematics.py` assumes when it reads `_positions`.) -/
def makeSimObject (normFn : Vec → ℚ) (position velocity : Vec)
    (name : String) (isStatic : Bool) (mass : ℚ) : SimObject :=
  let v := if isStatic then zeroVec else velocity
  { name := name, mass := mass, isStatic := isStatic,
    positions := [position], velocities := [v], speeds := [normFn v] }

/-- `simulator.py` lines 203–243, `Simulation.addObject`:
`name = name or f"object{len(data) + 1}"` (Python `or`: `None` and the
empty string are both falsy); if the registry is non-empty and the
resolved name equals a stored body's name, raise (registry untouched —
the append on line 235 is never reached); otherwise append the new body.
The method performs no check of the running flag.  Returns the updated
controller and the exception raised, if any. -/
def Simulation.addObject (normFn : Vec → ℚ) (sim : Simulation)
    (position velocity : Vec) (name : Option String) (isStatic : Bool)
    (mass : ℚ) : Simulation × Option AddErr :=
  let resolved : String :=
    match name with
    | none => "object" ++ toString (sim.simulation_data.length + 1)
    | some s =>
      if s = "" then "object" ++ toString (sim.simulation_data.length + 1)
      else s
  if 0 < sim.simulation_data.length ∧
      resolved ∈ sim.simulation_data.map SimObject.name then
    (sim, some .nameConflict)
  else
    ({ sim with simulation_data := sim.simulation_data ++
        [makeSimObject normFn position velocity resolved isStatic mass] },
      none)

/-- `data_handling.py` lines 5–18, class `SimObjectData`: the lists
`position`, `velocity`, `speed` are initialized in the *class* body
(`position: list[Vector] = []` …), so Python creates them once, at class
creation; they are class attributes, not per-instance fields.  This
record is that single class-level storage. -/
structure SimObjectData where
  position : List Vec
  velocity : List Vec
  speed : List ℚ
deriving DecidableEq, Repr

/-- The class-level storage as it stands when the class is created: three
empty lists. -/
def SimObjectData.classInitial : SimObjectData :=
  { position := [], velocity := [], speed := [] }

/-- `SimObjectData.__init__`: `self.position.append(inital_position)` etc.
Attribute lookup on `self` finds no instance attribute (none is ever
assigned) and resolves to the class attribute, so the appends mutate the
single class-level lists shared by every instance.  Constructing an
instance therefore maps the shared storage to this updated storage. -/
def SimObjectData.construct (normFn : Vec → ℚ) (s : SimObjectData)
    (inital_position inital_velocity : Vec) : SimObjectData :=
  { position := s.position ++ [inital_position]
    velocity := s.velocity ++ [inital_velocity]
    speed := s.speed ++ [normFn inital_velocity] }

/-- `data_handling.py` lines 32–64, `SimObject.__init__`: constructs the
`SimObjectData` with `init_position` and
`init_velocity if not isStatic else zeroVec`, updating the shared
class-level storage. -/
def SimObject.constructData (normFn : Vec → ℚ) (s : SimObjectData)
    (init_position init_velocity : Vec) (isStatic : Bool) : SimObjectData :=
  SimObjectData.construct normFn s init_position
    (if isStatic then zeroVec else init_velocity)

/-- Reading the `position` attribute of *any* `SimObject` instance: no
instance ever assigns an own `position` attribute, so the lookup resolves
to the one class-level list for every instance — the function does not
depend on which instance is asked. -/
def SimObjectData.positionAttr (s : SimObjectData) : List Vec := s.position

@[simp] theorem Vec.add_def (a b : Vec) : a + b = ⟨a.x + b.x, a.y + b.y⟩ := rfl

@[simp] theorem Vec.sub_def (a b : Vec) : a - b = ⟨a.x - b.x, a.y - b.y⟩ := rfl

@[simp] theorem Vec.neg_def (a : Vec) : -a = ⟨-a.x, -a.y⟩ := rfl

@[simp] theorem Vec.smul_def (c : ℚ) (v : Vec) : c • v = ⟨c * v.x, c * v.y⟩ := rfl

@[simp] theorem Vec.div_def (v : Vec) (c : ℚ) : v / c = ⟨v.x / c, v.y / c⟩ := rfl

/-- A body at position (2, 0) with mass 1, at rest. -/
def exBodyA : SimObject :=
  { name := "a", mass := 1, isStatic := false,
    positions := [⟨2, 0⟩], velocities := [zeroVec], speeds := [0] }

/-- A body at the origin with mass 1, at rest. -/
def exBodyB : SimObject :=
  { name := "b", mass := 1, isStatic := false,
    positions := [⟨0, 0⟩], velocities := [zeroVec], speeds := [0] }

/-- C1: the claim fails on the code.  For bodies of mass 1 at (2,0) and
(0,0) with G = 1 (so |r| = 2), `calculateMutualForce` returns (-1/2, 0):
its squared magnitude is 1/4, i.e. its magnitude is G·m·m/|r| = 1/2,
whereas the claimed magnitude G·m·m/|r|² evaluates to 1/4, whose square
is 1/16 ≠ 1/4.  The code scales `r_vec` itself (not the unit vector) by
G·m·m/r², dividing by one factor of |r| too few. -/
theorem calculateMutualForce_magnitude_failing_input :
    Kinematics.calculateMutualForce exBodyA exBodyB 1 = ⟨-(1/2), 0⟩ ∧
    Vec.dot (Kinematics.calculateMutualForce exBodyA exBodyB 1)
        (Kinematics.calculateMutualForce exBodyA exBodyB 1) = 1/4 ∧
    1 * exBodyA.mass * exBodyB.mass /
        Vec.dot (exBodyA.latestPos - exBodyB.latestPos)
          (exBodyA.latestPos - exBodyB.latestPos) = 1/4 ∧
    ¬((1 : ℚ)/4 = ((1 : ℚ)/4) ^ 2) := by
  refine ⟨?_, ?_, ?_, by norm_num⟩ <;>
    norm_num [Kinematics.calculateMutualForce, SimObject.latestPos,
      List.getLastD, exBodyA, exBodyB, Vec.dot, Vec.mk.injEq]

/-- C4: force antisymmetry.  For any two bodies (the claim assumes
non-coincident latest positions; the identity holds as an algebraic fact
of the code's formula), the force of `a` due to `b` is the negation of
the force of `b` due to `a`. -/
theorem calculateMutualForce_antisymm (a b : SimObject) (G : ℚ)
    (h : a.latestPos ≠ b.latestPos) :
    Kinematics.calculateMutualForce a b G =
      -Kinematics.calculateMutualForce b a G := by
  unfold Kinematics.calculateMutualForce
  simp only [Vec.sub_def, Vec.smul_def, Vec.neg_def, Vec.dot, Vec.mk.injEq]
  constructor <;> ring

/-- Witness for C4 at a concrete input: the bodies at (2,0) and (0,0)
have distinct latest positions, and the antisymmetry theorem applies. -/
theorem calculateMutualForce_antisymm_witness :
    exBodyA.latestPos ≠ exBodyB.latestPos ∧
    Kinematics.calculateMutualForce exBodyA exBodyB 1 =
      -Kinematics.calculateMutualForce exBodyB exBodyA 1 := by
  have hne : exBodyA.latestPos ≠ exBodyB.latestPos := by
    norm_num [SimObject.latestPos, List.getLastD, exBodyA, exBodyB,
      Vec.mk.injEq]
  exact ⟨hne, calculateMutualForce_antisymm exBodyA exBodyB 1 hne⟩

/-- The integration formula the spec states, from its words:
`newPosition = position + velocity*dt + netForce*dt²/(2*mass)`. -/
def specNewPosition (position velocity netForce : Vec) (dt mass : ℚ) : Vec :=
  position + (dt • velocity) + ((dt ^ 2 / (2 * mass)) • netForce)

/-- A dynamic body of mass 2 at (2,0) with velocity (0,1). -/
def exDynB : SimObject :=
  { name := "B", mass := 2, isStatic := false,
    positions := [⟨2, 0⟩], velocities := [⟨0, 1⟩], speeds := [1] }

/-- A static attractor of mass 1 at the origin. -/
def exStatA : SimObject :=
  { name := "A", mass := 1, isStatic := true,
    positions := [⟨0, 0⟩], velocities := [zeroVec], speeds := [0] }

/-- C2: the claim fails on the code.  One step (G = 1, dt = 1) over the
registry [B, A] — B dynamic, mass 2, at (2,0) with velocity (0,1);
A static at the origin — completes without error; the net force on B is
(-1, 0), and the code appends position (3/2, 1): it adds
`sumOfForces*dt²/2` without dividing by the mass.  The claimed formula
`position + velocity*dt + F*dt²/(2*mass)` evaluates to (7/4, 1) ≠ (3/2, 1).
(The appended velocity (-1/2, 1) does agree with the claimed
`velocity + F*dt/mass`.)  Holds for every model of `linalg.norm`, which
only feeds the speeds history. -/
theorem step_position_update_missing_mass_division (normFn : Vec → ℚ) :
    (Kinematics.updateSimObjectList_Kinematics normFn [exDynB, exStatA] 1 1).2
        = none ∧
    Kinematics.calculateMutualForce exDynB exStatA 1 = ⟨-1, 0⟩ ∧
    ((Kinematics.updateSimObjectList_Kinematics normFn [exDynB, exStatA] 1
        1).1.objs.getD 0 default).latestPos = ⟨3/2, 1⟩ ∧
    ((Kinematics.updateSimObjectList_Kinematics normFn [exDynB, exStatA] 1
        1).1.objs.getD 0 default).latestVel = ⟨-(1/2), 1⟩ ∧
    specNewPosition ⟨2, 0⟩ ⟨0, 1⟩ ⟨-1, 0⟩ 1 2 = ⟨7/4, 1⟩ ∧
    (⟨3/2, 1⟩ : Vec) ≠ ⟨7/4, 1⟩ := by
  refine ⟨?_, ?_, ?_, ?_, ?_, ?_⟩ <;>
    norm_num [Kinematics.updateSimObjectList_Kinematics, bodyLoop,
      processBody, sumCachedForces, cachedLoop, forceLoop, cacheRead,
      cacheWrite, initCache, Kinematics.calculateMutualForce,
      SimObject.latestPos, SimObject.latestVel, List.getLastD_cons,
      List.getD, exDynB, exStatA, Vec.dot, zeroVec, specNewPosition,
      Vec.mk.injEq, List.range_succ, List.replicate_succ, List.range']

/-- A registry of four dynamic unit-mass bodies at rest, at distinct
positions (0,0), (1,0), (2,0), (3,0). -/
def exList4 : List SimObject :=
  [{ name := "o1", mass := 1, isStatic := false,
     positions := [⟨0, 0⟩], velocities := [zeroVec], speeds := [0] },
   { name := "o2", mass := 1, isStatic := false,
     positions := [⟨1, 0⟩], velocities := [zeroVec], speeds := [0] },
   { name := "o3", mass := 1, isStatic := false,
     positions := [⟨2, 0⟩], velocities := [zeroVec], speeds := [0] },
   { name := "o4", mass := 1, isStatic := false,
     positions := [⟨3, 0⟩], velocities := [zeroVec], speeds := [0] }]

/-- C3: the claim fails on the code.  On a 4-body registry the step does
not perform 6 force evaluations: row `i` of the triangular cache is
allocated with `n - i` cells but written at the absolute index `j`, so
the store to cell [1][3] (row of length 3) raises `IndexError` after only
5 `calculateMutualForce` invocations (3 for i = 0, 2 for i = 1), and the
step aborts.  Holds for every model of `linalg.norm`. -/
theorem step_cache_raises_after_five_calls (normFn : Vec → ℚ) :
    (Kinematics.updateSimObjectList_Kinematics normFn exList4 1 1).2
        = some StepErr.indexError ∧
    (Kinematics.updateSimObjectList_Kinematics normFn exList4 1 1).1.calls
        = 5 ∧
    4 * (4 - 1) / 2 = 6 ∧ (5 : ℕ) ≠ 6 := by
  refine ⟨?_, ?_, by norm_num, by norm_num⟩ <;>
    norm_num [Kinematics.updateSimObjectList_Kinematics, bodyLoop,
      processBody, sumCachedForces, cachedLoop, forceLoop, cacheRead,
      cacheWrite, initCache, Kinematics.calculateMutualForce,
      SimObject.latestPos, SimObject.latestVel, List.getLastD_cons,
      List.getD, exList4, Vec.dot, zeroVec, Vec.mk.injEq, List.range_succ,
      List.replicate_succ, List.range']

/-- One iteration of the outer loop leaves every entry of the body list
untouched except (possibly) the one it integrates; a static entry is
never replaced (the `continue` on line 113 precedes the appends). -/
theorem processBody_entry_preserved (normFn : Vec → ℚ) (G dt : ℚ) (i : Nat)
    (st : StepState) (t : Nat) (b : SimObject)
    (ht : st.objs[t]? = some b) (hb : b.isStatic = true) :
    (processBody normFn G dt i st).1.objs[t]? = some b := by
  unfold processBody
  cases hsum : sumCachedForces st.cache i with
  | error e => exact ht
  | ok s0 =>
    dsimp only
    rcases hfl : forceLoop st.objs G i
        (List.range' (i + 1) (st.objs.length - (i + 1))) s0 st.cache
        st.calls with ⟨sum, cache2, calls2, err⟩
    cases err with
    | some e => exact ht
    | none =>
      dsimp only
      by_cases hstat : (st.objs.getD i default).isStatic = true
      · simp only [hstat, if_true]
        exact ht
      · have hne : t ≠ i := by
          intro he
          subst he
          rw [List.getD_eq_getElem?_getD, ht] at hstat
          exact hstat hb
        simp only [hstat, if_false, Bool.false_eq_true]
        rw [List.getElem?_set_ne (Ne.symm hne)]
        exact ht

/-- Extension of the preservation to the whole outer loop. -/
theorem bodyLoop_entry_preserved (normFn : Vec → ℚ) (G dt : ℚ)
    (is : List Nat) (st : StepState) (t : Nat) (b : SimObject)
    (ht : st.objs[t]? = some b) (hb : b.isStatic = true) :
    (bodyLoop normFn G dt is st).1.objs[t]? = some b := by
  induction is generalizing st with
  | nil => exact ht
  | cons i rest ih =>
    unfold bodyLoop
    rcases hpb : processBody normFn G dt i st with ⟨st2, err⟩
    have h2 : st2.objs[t]? = some b := by
      have hpres := processBody_entry_preserved normFn G dt i st t b ht hb
      rwa [hpb] at hpres
    cases err with
    | some e => exact h2
    | none => exact ih st2 h2

/-- `k` consecutive invocations of the step on a registry, each reading
the body list the previous one left behind (Python mutates the list in
place; after an exception the list as mutated so far is what remains, so
this also covers a final aborted step). -/
def stepIter (normFn : Vec → ℚ) (G dt : ℚ) :
    Nat → List SimObject → List SimObject
  | 0, objs => objs
  | k + 1, objs =>
    stepIter normFn G dt k
      (Kinematics.updateSimObjectList_Kinematics normFn objs G dt).1.objs

/-- C5: a body whose `isStatic` flag is set is never modified — its whole
record, in particular its position and velocity histories and hence their
latest entries, is unchanged by any number of consecutive steps, whatever
forces the other bodies exert, for every `G`, `dt` and model of
`linalg.norm`. -/
theorem static_body_never_stepped (normFn : Vec → ℚ) (G dt : ℚ)
    (objs : List SimObject) (i : Nat) (b : SimObject)
    (ht : objs[i]? = some b) (hb : b.isStatic = true) (k : Nat) :
    (stepIter normFn G dt k objs)[i]? = some b := by
  induction k generalizing objs with
  | zero => exact ht
  | succ k ih =>
    exact ih _ (bodyLoop_entry_preserved normFn G dt _ _ i b ht hb)

/-- A concrete stand-in for `linalg.norm`, used only to instantiate
closed witnesses of theorems that hold for every `normFn`. -/
def zeroNormFn : Vec → ℚ := fun _ => 0

/-- Witness for C5: in the registry [A, B] with A static at the origin,
two steps leave entry 0 equal to A. -/
theorem static_body_never_stepped_witness :
    ([exStatA, exDynB][0]? = some exStatA) ∧ exStatA.isStatic = true ∧
    (stepIter zeroNormFn 1 1 2 [exStatA, exDynB])[0]? = some exStatA :=
  ⟨rfl, rfl,
    static_body_never_stepped zeroNormFn 1 1 [exStatA, exDynB] 0 exStatA
      rfl rfl 2⟩

/-- A dynamic unit-mass body at (1,1), at rest. -/
def exCoin1 : SimObject :=
  { name := "c1", mass := 1, isStatic := false,
    positions := [⟨1, 1⟩], velocities := [zeroVec], speeds := [0] }

/-- A second dynamic unit-mass body at the same position (1,1). -/
def exCoin2 : SimObject :=
  { name := "c2", mass := 1, isStatic := false,
    positions := [⟨1, 1⟩], velocities := [zeroVec], speeds := [0] }

/-- C6 counterexample: two bodies with coincident latest positions.  The
step raises nothing — `calculateMutualForce` contains no check, the
division by `r_squared = 0` yields a value rather than an exception
(numpy emits `inf`/`nan` with a warning; neither semantics raises) — and
both bodies get a new position sample appended (history length 2), so
the step neither fails with a degenerate-geometry error nor refrains
from committing history. -/
theorem coincident_step_commits_counterexample :
    (exCoin1.latestPos = exCoin2.latestPos) ∧
    (Kinematics.updateSimObjectList_Kinematics zeroNormFn [exCoin1, exCoin2]
        1 1).2 = none ∧
    ((Kinematics.updateSimObjectList_Kinematics zeroNormFn [exCoin1, exCoin2]
        1 1).1.objs.getD 0 default).positions.length = 2 ∧
    ((Kinematics.updateSimObjectList_Kinematics zeroNormFn [exCoin1, exCoin2]
        1 1).1.objs.getD 1 default).positions.length = 2 := by
  refine ⟨rfl, ?_, ?_, ?_⟩ <;>
    norm_num [Kinematics.updateSimObjectList_Kinematics, bodyLoop,
      processBody, sumCachedForces, cachedLoop, forceLoop, cacheRead,
      cacheWrite, initCache, Kinematics.calculateMutualForce,
      SimObject.latestPos, SimObject.latestVel, List.getLastD_cons,
      List.getD, exCoin1, exCoin2, Vec.dot, zeroVec, zeroNormFn,
      Vec.mk.injEq, List.range_succ, List.replicate_succ, List.range']

/-- C6 amended: in a two-body registry of non-static bodies with
coincident latest positions, the step completes with no exception and
appends exactly one new position, velocity and speed sample to each
body's history — commits are incremental and per body, with no
degenerate-geometry failure. -/
theorem coincident_step_no_error_appends (normFn : Vec → ℚ)
    (a b : SimObject) (G dt : ℚ)
    (ha : a.isStatic = false) (hb : b.isStatic = false)
    (hpos : a.latestPos = b.latestPos) :
    (Kinematics.updateSimObjectList_Kinematics normFn [a, b] G dt).2
        = none ∧
    ((Kinematics.updateSimObjectList_Kinematics normFn [a, b] G
        dt).1.objs.getD 0 default).positions.length
        = a.positions.length + 1 ∧
    ((Kinematics.updateSimObjectList_Kinematics normFn [a, b] G
        dt).1.objs.getD 0 default).velocities.length
        = a.velocities.length + 1 ∧
    ((Kinematics.updateSimObjectList_Kinematics normFn [a, b] G
        dt).1.objs.getD 0 default).speeds.length = a.speeds.length + 1 ∧
    ((Kinematics.updateSimObjectList_Kinematics normFn [a, b] G
        dt).1.objs.getD 1 default).positions.length
        = b.positions.length + 1 ∧
    ((Kinematics.updateSimObjectList_Kinematics normFn [a, b] G
        dt).1.objs.getD 1 default).velocities.length
        = b.velocities.length + 1 ∧
    ((Kinematics.updateSimObjectList_Kinematics normFn [a, b] G
        dt).1.objs.getD 1 default).speeds.length = b.speeds.length + 1 := by
  refine ⟨?_, ?_, ?_, ?_, ?_, ?_, ?_⟩ <;>
    simp [Kinematics.updateSimObjectList_Kinematics, bodyLoop,
      processBody, sumCachedForces, cachedLoop, forceLoop, cacheRead,
      cacheWrite, initCache, List.getD, ha, hb, List.range_succ,
      List.replicate_succ, List.range']

/-- Witness for the amended C6 at a concrete input: the two coincident
bodies above satisfy the hypotheses, and the amended theorem applies. -/
theorem coincident_step_no_error_appends_witness :
    (exCoin1.isStatic = false ∧ exCoin2.isStatic = false ∧
      exCoin1.latestPos = exCoin2.latestPos) ∧
    (Kinematics.updateSimObjectList_Kinematics zeroNormFn
        [exCoin1, exCoin2] 1 1).2 = none ∧
    ((Kinematics.updateSimObjectList_Kinematics zeroNormFn
        [exCoin1, exCoin2] 1 1).1.objs.getD 0 default).positions.length
        = exCoin1.positions.length + 1 ∧
    ((Kinematics.updateSimObjectList_Kinematics zeroNormFn
        [exCoin1, exCoin2] 1 1).1.objs.getD 0 default).velocities.length
        = exCoin1.velocities.length + 1 ∧
    ((Kinematics.updateSimObjectList_Kinematics zeroNormFn
        [exCoin1, exCoin2] 1 1).1.objs.getD 0 default).speeds.length
        = exCoin1.speeds.length + 1 ∧
    ((Kinematics.updateSimObjectList_Kinematics zeroNormFn
        [exCoin1, exCoin2] 1 1).1.objs.getD 1 default).positions.length
        = exCoin2.positions.length + 1 ∧
    ((Kinematics.updateSimObjectList_Kinematics zeroNormFn
        [exCoin1, exCoin2] 1 1).1.objs.getD 1 default).velocities.length
        = exCoin2.velocities.length + 1 ∧
    ((Kinematics.updateSimObjectList_Kinematics zeroNormFn
        [exCoin1, exCoin2] 1 1).1.objs.getD 1 default).speeds.length
        = exCoin2.speeds.length + 1 :=
  ⟨⟨rfl, rfl, rfl⟩,
    coincident_step_no_error_appends zeroNormFn exCoin1 exCoin2 1 1
      rfl rfl rfl⟩

/-- C7: adding a body whose (non-empty) provided name equals an existing
body's name raises the naming-conflict exception before the append on
line 235 is reached, so the registry — in particular its length — is
unchanged. -/
theorem addObject_duplicate_name_conflict (normFn : Vec → ℚ)
    (sim : Simulation) (p v : Vec) (s : String) (isStatic : Bool)
    (mass : ℚ) (h1 : s ≠ "")
    (h2 : s ∈ sim.simulation_data.map SimObject.name) :
    (sim.addObject normFn p v (some s) isStatic mass).2
        = some AddErr.nameConflict ∧
    (sim.addObject normFn p v (some s) isStatic mass).1 = sim := by
  have hlen : 0 < sim.simulation_data.length := by
    obtain ⟨a, hmem, _⟩ := List.mem_map.mp h2
    exact List.length_pos.mpr (List.ne_nil_of_mem hmem)
  unfold Simulation.addObject
  simp [h1, hlen, h2]

/-- A controller that is not running, holding one body named "a". -/
def exSim : Simulation :=
  { simulation_running := false, simulation_data := [exBodyA] }

/-- Witness for C7 at a concrete input: adding a second body named "a"
to the registry that already holds one raises the conflict and leaves
the controller unchanged. -/
theorem addObject_duplicate_name_conflict_witness :
    ("a" ≠ "" ∧ "a" ∈ exSim.simulation_data.map SimObject.name) ∧
    (exSim.addObject zeroNormFn ⟨5, 5⟩ ⟨0, 0⟩ (some "a") false 1).2
        = some AddErr.nameConflict ∧
    (exSim.addObject zeroNormFn ⟨5, 5⟩ ⟨0, 0⟩ (some "a") false 1).1
        = exSim := by
  have h1 : "a" ≠ "" := by decide
  have h2 : "a" ∈ exSim.simulation_data.map SimObject.name := by
    simp [exSim, exBodyA]
  exact ⟨⟨h1, h2⟩,
    addObject_duplicate_name_conflict zeroNormFn exSim ⟨5, 5⟩ ⟨0, 0⟩ "a"
      false 1 h1 h2⟩

/-- A controller whose running flag is set, holding one body named "a". -/
def exSimRunning : Simulation :=
  { simulation_running := true, simulation_data := [exBodyA] }

/-- C8 counterexample: with the controller in the running state,
`addObject` with a fresh name raises nothing and appends the body — the
method contains no running-state check at all (only the configuration
setters consult `isRunning`), so the call neither fails with a state
error nor leaves the registry unchanged. -/
theorem addObject_while_running_succeeds_counterexample :
    exSimRunning.isRunning = true ∧
    (exSimRunning.addObject zeroNormFn ⟨5, 5⟩ ⟨0, 0⟩ (some "b2") false
        1).2 = none ∧
    (exSimRunning.addObject zeroNormFn ⟨5, 5⟩ ⟨0, 0⟩ (some "b2") false
        1).1.simulation_data.length = 2 := by
  refine ⟨rfl, ?_, ?_⟩ <;>
    simp [Simulation.addObject, exSimRunning, exBodyA, makeSimObject]

/-- C8 amended: `addObject` performs no running-state check; even in a
state where `isRunning` is true (a flag, incidentally, that `run()` never
sets), adding a body with a fresh non-empty name succeeds and appends it
to the registry. -/
theorem addObject_ignores_running_state (normFn : Vec → ℚ)
    (sim : Simulation) (p v : Vec) (s : String) (isStatic : Bool)
    (mass : ℚ) (hrun : sim.isRunning = true) (h1 : s ≠ "")
    (h2 : s ∉ sim.simulation_data.map SimObject.name) :
    (sim.addObject normFn p v (some s) isStatic mass).2 = none ∧
    (sim.addObject normFn p v (some s) isStatic mass).1.simulation_data
        = sim.simulation_data ++ [makeSimObject normFn p v s isStatic mass] := by
  unfold Simulation.addObject
  simp [h1, h2]

/-- Witness for the amended C8 at a concrete input: the running
controller accepts the fresh name "b2" and appends the body. -/
theorem addObject_ignores_running_state_witness :
    (exSimRunning.isRunning = true ∧ "b2" ≠ "" ∧
      "b2" ∉ exSimRunning.simulation_data.map SimObject.name) ∧
    (exSimRunning.addObject zeroNormFn ⟨5, 5⟩ ⟨0, 0⟩ (some "b2") false
        1).2 = none ∧
    (exSimRunning.addObject zeroNormFn ⟨5, 5⟩ ⟨0, 0⟩ (some "b2") false
        1).1.simulation_data = exSimRunning.simulation_data ++
        [makeSimObject zeroNormFn ⟨5, 5⟩ ⟨0, 0⟩ "b2" false 1] := by
  have hrun : exSimRunning.isRunning = true := rfl
  have h1 : "b2" ≠ "" := by decide
  have h2 : "b2" ∉ exSimRunning.simulation_data.map SimObject.name := by
    simp [exSimRunning, exBodyA]
  exact ⟨⟨hrun, h1, h2⟩,
    addObject_ignores_running_state zeroNormFn exSimRunning ⟨5, 5⟩ ⟨0, 0⟩
      "b2" false 1 hrun h1 h2⟩

/-- C9: the claim fails on the code, checked at its own example — bodies
at (0,0) and (2,0).  With `positions()` modelled from the spec as the
list of latest positions, `np.sum(..., axis=1)` sums each body's x and y
coordinates instead of averaging over bodies, so the stored center is
[0, 1], not the centroid (1, 0); and `_x_limit` (line 30) subtracts the
deviation in *both* entries, so the x bounds are equal instead of being
centroid ± max_deviation.  Both facts hold for every model of
`linalg.norm` (the deviation value cancels from the comparison of the
two x-limit entries). -/
theorem animation_center_axis_and_xlimit_bug (normFn : Vec → ℚ) :
    (Kinematics.updateSimObjectList_AnimationQuantities normFn
        [exBodyB, exBodyA]).center = [0, 1] ∧
    (Kinematics.updateSimObjectList_AnimationQuantities normFn
        [exBodyB, exBodyA]).center ≠ [1, 0] ∧
    (Kinematics.updateSimObjectList_AnimationQuantities normFn
        [exBodyB, exBodyA]).x_limit.1 =
      (Kinematics.updateSimObjectList_AnimationQuantities normFn
        [exBodyB, exBodyA]).x_limit.2 := by
  refine ⟨?_, ?_, rfl⟩ <;>
    norm_num [Kinematics.updateSimObjectList_AnimationQuantities,
      SimObjectList.positions, npSumAxis1, SimObject.latestPos,
      List.getLastD_cons, exBodyA, exBodyB]

/-- C10: the history containers of `SimObjectData` are class-level and
shared.  Constructing two bodies in sequence from the storage as it
stands at class creation leaves the single shared `position` list holding
both initial positions, in construction order — length 2, not two
independent one-element histories — and the `position` attribute read of
either instance resolves to that one list. -/
theorem simObjectData_class_lists_shared (normFn : Vec → ℚ)
    (p1 v1 p2 v2 : Vec) (st1 st2 : Bool) :
    SimObjectData.positionAttr
        (SimObject.constructData normFn
          (SimObject.constructData normFn SimObjectData.classInitial
            p1 v1 st1) p2 v2 st2) = [p1, p2] ∧
    (SimObjectData.positionAttr
        (SimObject.constructData normFn
          (SimObject.constructData normFn SimObjectData.classInitial
            p1 v1 st1) p2 v2 st2)).length = 2 := by
  constructor <;>
    simp [SimObjectData.positionAttr, SimObject.constructData,
      SimObjectData.construct, SimObjectData.classInitial]
